import Mathlib

/-!
# Verification of `gym_minigrid/envs/risky.py` (`RiskyPathEnv`)

Shallow embedding of the RiskyPath grid-world environment: the grid and its
construction, the reward specification, the `step` transition/reward engine,
the `can_move` predicate, and the tensor observation.  Components that live in
`gym_minigrid.minigrid` (outside the given source file) are modelled from the
spec and marked as such in their doc comments.

Conventions:
* Positions and movement vectors are pairs of integers `(x, y)`; the grid's
  y coordinate grows downwards (minigrid convention), so "north" is `(0, -1)`.
* Rewards and probabilities are rationals.
* The per-environment pseudorandom generator is a stream of values in `[0, 1)`
  together with a cursor; each generator call (`random`, `choice`) consumes
  exactly one stream value, so the cursor counts the draws consumed.
* Python exceptions (the `slip_now` UnboundLocalError, the unknown-action
  assertion) surface as `Except.error`; the environment record returned next
  to the error carries the mutations performed before the raise.
-/

namespace RiskyPath

/-- Terrain tags of the world objects placed on the grid: wall, goal, lava and
the spiky ("risky") tile.  An unoccupied cell is `none` in the grid map. -/
inductive Obj : Type
  | wall
  | goal
  | lava
  | spiky
deriving DecidableEq, Repr

/-- Modelled from the spec: `WorldObj.can_overlap` of minigrid — the agent may
stand on every terrain except walls (goal, lava and spiky tiles overlap). -/
def canOverlap : Obj → Bool
  | Obj.wall => false
  | _ => true

/-- The static terrain map: dimensions plus a mapping from integer coordinates
to an optional terrain tag. -/
structure Grid : Type where
  width : ℕ
  height : ℕ
  cells : ℤ × ℤ → Option Obj

/-- Modelled from the spec: `Grid.get` returns the tag at a coordinate or
"empty" (`none`).  minigrid asserts the coordinate is in bounds; every query
performed by the embedded engine on reachable states is in bounds, and the
out-of-bounds value chosen here is never observed. -/
def Grid.get (g : Grid) (p : ℤ × ℤ) : Option Obj :=
  if 0 ≤ p.1 ∧ p.1 < (g.width : ℤ) ∧ 0 ≤ p.2 ∧ p.2 < (g.height : ℤ) then
    g.cells p
  else
    none

/-- Modelled from the spec: `Grid.set` overwrites the tag at a coordinate
(last-write-wins). -/
def Grid.set (g : Grid) (p : ℤ × ℤ) (o : Obj) : Grid :=
  { g with cells := fun q => if q = p then some o else g.cells q }

/-- Whether a coordinate lies on the outer ring of a `w × h` grid. -/
def onRing (w h : ℕ) (p : ℤ × ℤ) : Prop :=
  p.1 = 0 ∨ p.1 = (w : ℤ) - 1 ∨ p.2 = 0 ∨ p.2 = (h : ℤ) - 1

instance (w h : ℕ) (p : ℤ × ℤ) : Decidable (onRing w h p) := by
  unfold onRing; infer_instance

/-- Modelled from the spec: `wall_rect(0, 0, width, height)` places the
surrounding walls — every cell of the outer ring becomes `wall`. -/
def Grid.wallRect (g : Grid) : Grid :=
  { g with cells := fun q =>
      if onRing g.width g.height q then some Obj.wall else g.cells q }

/-- The reward specification dictionary: exactly the seven named fields. -/
structure RewardSpec : Type where
  step_penalty : ℚ
  goal_reward : ℚ
  absorbing_states : Bool
  absorbing_reward_goal : ℚ
  absorbing_reward_lava : ℚ
  risky_tile_reward : ℚ
  lava_reward : ℚ
deriving DecidableEq, Repr

/-- `DEFAULT_REWARDS` of the source. -/
def DEFAULT_REWARDS : RewardSpec :=
  { step_penalty := 0
    goal_reward := 1
    absorbing_states := false
    absorbing_reward_goal := 0
    absorbing_reward_lava := -1
    risky_tile_reward := 0
    lava_reward := -1 }

/-- Modelled from the spec: the per-environment pseudorandom generator
(`self.np_random`), seeded once at construction — a stream of values in
`[0, 1)` with a cursor; each generator call consumes exactly one value, so
`idx` counts the draws consumed so far. -/
structure Rng : Type where
  vals : ℕ → ℚ
  idx : ℕ

/-- Modelled from the spec: `np_random.random()` — draw one uniform value. -/
def Rng.random (r : Rng) : ℚ × Rng :=
  (r.vals r.idx, { r with idx := r.idx + 1 })

/-- Modelled from the spec: `np_random.choice(n)` — one generator call
returning an index `< n` (for `n > 0`). -/
def Rng.choice (r : Rng) (n : ℕ) : ℕ × Rng :=
  ((r.vals r.idx * n).floor.toNat % n, { r with idx := r.idx + 1 })

/-- The mutable environment state: the instance attributes of `RiskyPathEnv`
that the step engine reads or writes. -/
structure Env : Type where
  grid : Grid
  agent_start_pos : ℤ × ℤ
  slip_proba : ℚ
  reward_spec : RewardSpec
  goal_positions : List (ℤ × ℤ)
  lava_positions : List (ℤ × ℤ)
  spiky_active : Bool
  spiky_positions : List (ℤ × ℤ)
  wall_rebound : Bool
  max_steps : ℕ
  agent_pos : ℤ × ℤ
  agent_dir : ℕ
  step_count : ℕ
  rng : Rng

/-- Modelled from the spec: minigrid's `DIR_TO_VEC` — direction index to unit
vector: 0 = east `(1,0)`, 1 = south `(0,1)`, 2 = west `(-1,0)`,
3 = north `(0,-1)`. -/
def DIR_TO_VEC : ℕ → ℤ × ℤ
  | 0 => (1, 0)
  | 1 => (0, 1)
  | 2 => (-1, 0)
  | _ => (0, -1)

/-- The direction index assigned by the `step` action dispatch
(`west ↦ 2`, `north ↦ 3`, `east ↦ 0`, `south ↦ 1`); `none` for an action
outside the four-element action set (the `assert False, "Unknown action."`
branch). -/
def dirOfAction : ℕ → Option ℕ
  | 0 => some 2
  | 1 => some 3
  | 2 => some 0
  | 3 => some 1
  | _ => none

/-- Modelled from the spec: minigrid's `front_pos` — the cell in front of the
agent, `agent_pos + DIR_TO_VEC[agent_dir]`. -/
def front_pos (e : Env) : ℤ × ℤ :=
  e.agent_pos + DIR_TO_VEC e.agent_dir

/-- `RiskyPathEnv.can_move`: the agent may move unless the cell it currently
occupies is a goal or lava cell. -/
def can_move (e : Env) : Bool :=
  match e.grid.get e.agent_pos with
  | none => true
  | some o => !(o == Obj.goal || o == Obj.lava)

/-- `next_cell == None or next_cell.can_overlap()`: the cell is free for the
agent to be on. -/
def cellFree (g : Grid) (p : ℤ × ℤ) : Bool :=
  match g.get p with
  | none => true
  | some o => canOverlap o

/-- The filtered rebound/slip candidate list of `step`: behind the agent, the
two cells perpendicular to its direction, and the forward cell (in that
order), keeping those the agent can be on.  `np.flip` of a 2-vector swaps its
components. -/
def rebound_slip_options (g : Grid) (current_pos current_dir fwd_pos : ℤ × ℤ) :
    List (ℤ × ℤ) :=
  let behind_pos := current_pos - current_dir
  let side_dir : ℤ × ℤ := (current_dir.2, current_dir.1)
  let side_pos_1 := current_pos + side_dir
  let side_pos_2 := current_pos - side_dir
  let tmp_rebound_slip := [behind_pos, side_pos_1, side_pos_2, fwd_pos]
  tmp_rebound_slip.filter (fun c => cellFree g c)

/-- The diagnostics record (`info` dictionary) returned by `step`. -/
structure StepInfo : Type where
  agent_pos : ℤ × ℤ
  previous_pos : ℤ × ℤ
  actual_movement_vec : ℤ × ℤ
  intended_movement_vec : ℤ × ℤ
  slipped : Bool
  current_cell_type : Option Obj
deriving DecidableEq, Repr

/-- The `(reward, done, info)` part of the step return value (the rendered
observation is out of scope). -/
structure StepOut : Type where
  reward : ℚ
  done : Bool
  info : StepInfo
deriving DecidableEq, Repr

/-- The `slip_now` block of `step`: draw from the generator and compare with
the slip probability only when the probability is positive (no randomness is
consumed when slipping is disabled). -/
def slipDraw (p : ℚ) (r : Rng) : Bool × Rng :=
  if 0 < p then
    (decide (r.random.1 < p), r.random.2)
  else
    (false, r)

/-- The movement block of `step`, entered with the facing already updated:
resolve the slip draw, move forward when the forward cell is free and no slip
occurred, otherwise rebound/slip to a randomly chosen valid candidate when
rebound is enabled or a slip occurred, otherwise stay. -/
def moveResolve (e : Env) : Env :=
  let fwd_pos := front_pos e
  let sr := slipDraw e.slip_proba e.rng
  let slip_now := sr.1
  let e3 := { e with rng := sr.2 }
  if cellFree e3.grid fwd_pos && !slip_now then
    { e3 with agent_pos := fwd_pos }
  else if e3.wall_rebound || slip_now then
    let options :=
      rebound_slip_options e3.grid e3.agent_pos (DIR_TO_VEC e3.agent_dir) fwd_pos
    if 0 < options.length then
      let ir := e3.rng.choice options.length
      { e3 with agent_pos := options.getD ir.1 e3.agent_pos, rng := ir.2 }
    else
      e3
  else
    e3

/-- The reward / episode-end block of `step`: starting from the base step
penalty, the goal and lava branches (absorbing or terminating) followed by the
spiky branch, evaluated on the terrain of the cell finally occupied. -/
def rewardDone (spec : RewardSpec) (reward0 : ℚ) (cell : Option Obj) : ℚ × Bool :=
  let rd1 : ℚ × Bool :=
    if cell = some Obj.goal then
      if spec.absorbing_states then
        (reward0 + spec.absorbing_reward_goal, false)
      else
        (reward0 + spec.goal_reward, true)
    else
      (reward0, false)
  let rd2 : ℚ × Bool :=
    if cell = some Obj.lava then
      if spec.absorbing_states then
        (rd1.1 + spec.absorbing_reward_lava, rd1.2)
      else
        (rd1.1 + spec.lava_reward, true)
    else
      rd1
  if cell = some Obj.spiky then
    (rd2.1 + spec.risky_tile_reward, rd2.2)
  else
    rd2

/-- `RiskyPathEnv.step`.  Returns the mutated environment together with either
the step outcome or the error raised: `"Unknown action."` for an action
outside the action set, and an `UnboundLocalError` for `slip_now` when
`can_move` is false (the source assigns `slip_now` only inside the `can_move`
branch but reads it unconditionally when building the diagnostics record). -/
def step (e0 : Env) (action : ℕ) : Env × Except String StepOut :=
  let e1 := { e0 with step_count := e0.step_count + 1 }
  let reward0 := e1.reward_spec.step_penalty
  let previous_position := e1.agent_pos
  if can_move e1 then
    match dirOfAction action with
    | none => (e1, Except.error "Unknown action.")
    | some d =>
      let e2 := { e1 with agent_dir := d }
      let slip_now := (slipDraw e2.slip_proba e2.rng).1
      let e4 := moveResolve e2
      let next_cell2 := e4.grid.get e4.agent_pos
      let rd := rewardDone e4.reward_spec reward0 next_cell2
      let done2 := if e4.max_steps ≤ e4.step_count then true else rd.2
      (e4, Except.ok
        { reward := rd.1
          done := done2
          info :=
            { agent_pos := e4.agent_pos
              previous_pos := previous_position
              actual_movement_vec := e4.agent_pos - previous_position
              intended_movement_vec := DIR_TO_VEC e4.agent_dir
              slipped := slip_now
              current_cell_type := next_cell2 } })
  else
    (e1, Except.error "UnboundLocalError: slip_now referenced before assignment")

/-- The default lava layout generated in `__init__` when `lava_positions` is
`None`: `(1, y)` for `y = 1 .. height-2` (ascending), `(3, y)` for
`y = height-3 .. height-7` (descending, five values), then
`(6, height-5)` and `(6, height-6)`. -/
def defaultLavaPositions (height : ℕ) : List (ℤ × ℤ) :=
  ((List.range (height - 2)).map fun y => ((1 : ℤ), (y : ℤ) + 1))
    ++ ((List.range 5).map fun i => ((3 : ℤ), (height : ℤ) - 3 - (i : ℤ)))
    ++ [((6 : ℤ), (height : ℤ) - 5), ((6 : ℤ), (height : ℤ) - 6)]

/-- The default spiky layout generated in `__init__` when spiky tiles are
active and `spiky_positions` is `None`: `(2, y)` for `y = 1 .. height-3`. -/
def defaultSpikyPositions (height : ℕ) : List (ℤ × ℤ) :=
  (List.range (height - 3)).map fun y => ((2 : ℤ), (y : ℤ) + 1)

/-- The constructor arguments of `RiskyPathEnv.__init__`, with the source's
default values (`show_agent_dir` and the seed only affect rendering and the
opaque generator stream and are not part of the model). -/
structure Config : Type where
  width : ℕ := 11
  height : ℕ := 11
  agent_start_pos : ℤ × ℤ := (2, 9)
  goal_positions : List (ℤ × ℤ) := [(1, 3)]
  lava_positions : Option (List (ℤ × ℤ)) := none
  spiky_active : Bool := false
  spiky_positions : Option (List (ℤ × ℤ)) := none
  reward_spec : RewardSpec := DEFAULT_REWARDS
  slip_proba : ℚ := 0
  wall_rebound : Bool := false
  max_steps : ℕ := 150

/-- `temp_lava_positions`: the supplied lava list, or the default layout. -/
def resolvedLava (c : Config) : List (ℤ × ℤ) :=
  c.lava_positions.getD (defaultLavaPositions c.height)

/-- `temp_spiky_positions`: the default spiky layout when spiky tiles are
active and none were supplied, else the supplied list (empty when unset). -/
def resolvedSpiky (c : Config) : List (ℤ × ℤ) :=
  if c.spiky_active && c.spiky_positions.isNone then
    defaultSpikyPositions c.height
  else
    c.spiky_positions.getD []

/-- The conjunction of the `assert` statements of `RiskyPathEnv.__init__`
(the reward-specification key check and the tuple/int type checks hold by
construction in this typed model). -/
def initChecks (c : Config) : Bool :=
  decide (6 ≤ c.width) && decide (6 ≤ c.height)
    && decide (0 ≤ c.slip_proba) && decide (c.slip_proba < 1)
    && decide (1 < c.agent_start_pos.1)
    && decide (c.agent_start_pos.1 < (c.width : ℤ) - 1)
    && decide (1 < c.agent_start_pos.2)
    && decide (c.agent_start_pos.2 < (c.height : ℤ) - 1)
    && !(c.goal_positions.contains c.agent_start_pos)
    && !((resolvedLava c).contains c.agent_start_pos)
    && (decide (c.reward_spec.risky_tile_reward = 0) || c.spiky_active)

/-- `RiskyPathEnv._gen_grid`: an empty grid, the surrounding wall ring, then
lava tiles, then spiky tiles (if active), then the goal tiles last so that a
goal overrides any earlier tile at the same coordinate. -/
def genGrid (c : Config) : Grid :=
  let g0 : Grid := { width := c.width, height := c.height, cells := fun _ => none }
  let g1 := g0.wallRect
  let g2 := (resolvedLava c).foldl (fun g p => g.set p Obj.lava) g1
  let g3 :=
    if c.spiky_active then
      (resolvedSpiky c).foldl (fun g p => g.set p Obj.spiky) g2
    else
      g2
  c.goal_positions.foldl (fun g p => g.set p Obj.goal) g3

/-- The freshly constructed (equivalently, freshly reset) environment:
`_gen_grid` has run, the agent is at its start position facing up
(`agent_dir = 3`), and the step counter is zero.  The generator seeded from
the configured seed is passed in explicitly (its stream is opaque). -/
def mkEnv (c : Config) (r : Rng) : Env :=
  { grid := genGrid c
    agent_start_pos := c.agent_start_pos
    slip_proba := c.slip_proba
    reward_spec := c.reward_spec
    goal_positions := c.goal_positions
    lava_positions := resolvedLava c
    spiky_active := c.spiky_active
    spiky_positions := resolvedSpiky c
    wall_rebound := c.wall_rebound
    max_steps := c.max_steps
    agent_pos := c.agent_start_pos
    agent_dir := 3
    step_count := 0
    rng := r }

/-- A concrete generator stream for witnesses: every value is `0`. -/
def zeroRng : Rng := { vals := fun _ => 0, idx := 0 }

/-- The `shape` component of `tensor_observation_space`: channel count 5 with
spiky tiles active, 4 without. -/
def tensorShape (e : Env) : ℕ × ℕ × ℕ :=
  if e.spiky_active then
    (e.grid.width, e.grid.height, 5)
  else
    (e.grid.width, e.grid.height, 4)

/-- `RiskyPathEnv.tensor_obs`, entry-wise: the array starts at zero, channel 0
is set to 1 at the agent position, and the terrain sweep sets channel 1 at
walls, 2 at lava, 3 at goals and 4 at spiky tiles (no two writes target the
same entry, so the entry value is determined pointwise). -/
def tensorObs (e : Env) (x y c : ℕ) : ℕ :=
  if c = 0 then
    if ((x : ℤ), (y : ℤ)) = e.agent_pos then 1 else 0
  else
    match e.grid.get ((x : ℤ), (y : ℤ)) with
    | some Obj.wall => if c = 1 then 1 else 0
    | some Obj.lava => if c = 2 then 1 else 0
    | some Obj.goal => if c = 3 then 1 else 0
    | some Obj.spiky => if c = 4 then 1 else 0
    | none => 0

/-- Iterated stepping: apply `step` with the given action list, threading the
environment (also past an error, whose returned environment carries exactly
the mutations performed before the raise). -/
def stepIter (e : Env) : List ℕ → Env
  | [] => e
  | a :: rest => stepIter (step e a).1 rest

/-- Iterated stepping that stops at the first raised error, as a Python
caller would observe. -/
def stepIterOk (e : Env) : List ℕ → Option Env
  | [] => some e
  | a :: rest =>
    match step e a with
    | (e1, Except.ok _) => stepIterOk e1 rest
    | (_, Except.error _) => none

/-! ## Concrete environments used by witnesses and counterexamples -/

/-- The default environment: 11×11 grid, start `(2, 9)`, goal `(1, 3)`,
default lava layout, no spiky tiles, default rewards, slip 0, no rebound,
150 max steps. -/
def env10 : Env := mkEnv {} zeroRng

/-- Default configuration except that absorbing states are enabled with an
absorbing-goal reward of 5. -/
def cAbs : Config :=
  { reward_spec :=
      { DEFAULT_REWARDS with absorbing_states := true, absorbing_reward_goal := 5 } }

/-- The absorbing-states environment with the agent placed one cell east of
the goal `(1, 3)`. -/
def eAbs : Env := { mkEnv cAbs zeroRng with agent_pos := (2, 3) }

/-- The default environment with the agent standing on the goal cell. -/
def eGoal : Env := { env10 with agent_pos := (1, 3) }

/-! ## Structural lemmas about `step` -/

theorem can_move_step_count (e : Env) (n : ℕ) :
    can_move { e with step_count := n } = can_move e := rfl

theorem moveResolve_grid (e : Env) : (moveResolve e).grid = e.grid := by
  simp only [moveResolve]
  repeat' split
  all_goals rfl

theorem moveResolve_agent_dir (e : Env) :
    (moveResolve e).agent_dir = e.agent_dir := by
  simp only [moveResolve]
  repeat' split
  all_goals rfl

theorem moveResolve_step_count (e : Env) :
    (moveResolve e).step_count = e.step_count := by
  simp only [moveResolve]
  repeat' split
  all_goals rfl

theorem moveResolve_max_steps (e : Env) :
    (moveResolve e).max_steps = e.max_steps := by
  simp only [moveResolve]
  repeat' split
  all_goals rfl

theorem moveResolve_slip_proba (e : Env) :
    (moveResolve e).slip_proba = e.slip_proba := by
  simp only [moveResolve]
  repeat' split
  all_goals rfl

theorem moveResolve_wall_rebound (e : Env) :
    (moveResolve e).wall_rebound = e.wall_rebound := by
  simp only [moveResolve]
  repeat' split
  all_goals rfl

theorem moveResolve_reward_spec (e : Env) :
    (moveResolve e).reward_spec = e.reward_spec := by
  simp only [moveResolve]
  repeat' split
  all_goals rfl

theorem step_grid (e : Env) (a : ℕ) : (step e a).1.grid = e.grid := by
  simp only [step]
  repeat' split
  all_goals simp [moveResolve_grid]

theorem step_max_steps (e : Env) (a : ℕ) :
    (step e a).1.max_steps = e.max_steps := by
  simp only [step]
  repeat' split
  all_goals simp [moveResolve_max_steps]

theorem step_step_count (e : Env) (a : ℕ) :
    (step e a).1.step_count = e.step_count + 1 := by
  simp only [step]
  repeat' split
  all_goals simp [moveResolve_step_count]

theorem step_slip_proba (e : Env) (a : ℕ) :
    (step e a).1.slip_proba = e.slip_proba := by
  simp only [step]
  repeat' split
  all_goals simp [moveResolve_slip_proba]

theorem step_wall_rebound (e : Env) (a : ℕ) :
    (step e a).1.wall_rebound = e.wall_rebound := by
  simp only [step]
  repeat' split
  all_goals simp [moveResolve_wall_rebound]

theorem step_reward_spec (e : Env) (a : ℕ) :
    (step e a).1.reward_spec = e.reward_spec := by
  simp only [step]
  repeat' split
  all_goals simp [moveResolve_reward_spec]

/-! ## C1, C2, C3 -/

/-- C2: for every state in which the agent occupies a goal or lava cell (so
`can_move` is false), `step` raises an unhandled error instead of returning a
step outcome: `slip_now` is assigned only inside the `can_move` branch but is
read unconditionally when building the diagnostics record. -/
theorem step_raises_when_frozen (e : Env) (a : ℕ) (h : can_move e = false) :
    (step e a).2 =
      Except.error "UnboundLocalError: slip_now referenced before assignment" := by
  simp [step, can_move_step_count, h]

/-- C2 witness: with the agent standing on the goal cell of the default grid,
`can_move` is false and the step raises. -/
theorem step_raises_when_frozen_witness :
    can_move eGoal = false
      ∧ (step eGoal 1).2 =
          Except.error "UnboundLocalError: slip_now referenced before assignment" :=
  ⟨by decide, step_raises_when_frozen eGoal 1 (by decide)⟩

/-- C1: with absorbing states enabled, the step that reaches the goal returns
`done = false` with reward `step_penalty + absorbing_reward_goal` exactly as
the claim says, but every subsequent step raises an `UnboundLocalError`
(`slip_now` is read without having been assigned) instead of returning the
absorbing reward again — the absorbing-state feature is unusable past the
first step. -/
theorem absorbing_reach_then_crash :
    (step eAbs 0).2 =
        Except.ok
          { reward := cAbs.reward_spec.step_penalty
                        + cAbs.reward_spec.absorbing_reward_goal
            done := false
            info :=
              { agent_pos := (1, 3)
                previous_pos := (2, 3)
                actual_movement_vec := (-1, 0)
                intended_movement_vec := (-1, 0)
                slipped := false
                current_cell_type := some Obj.goal } }
      ∧ (step (step eAbs 0).1 1).2 =
          Except.error "UnboundLocalError: slip_now referenced before assignment" :=
  ⟨rfl, rfl⟩

/-- C3 counterexample: with the agent frozen on the goal cell (facing north,
`agent_dir = 3`), a `step` with the east action (whose implied direction is
0) leaves the facing unchanged at 3 — the facing update sits inside the
`can_move` guard and is not unconditional. -/
theorem facing_frozen_counterexample :
    dirOfAction 2 = some 0
      ∧ eGoal.agent_dir = 3
      ∧ (step eGoal 2).1.agent_dir = 3 := by
  decide

/-- C3 amended: whenever the can-move predicate holds, the facing after the
step equals the direction implied by the action, even if the movement itself
is blocked; when the agent is frozen on a goal or lava cell the facing (like
the position) is left unchanged. -/
theorem facing_updated_iff_can_move (e : Env) (a d : ℕ)
    (hm : can_move e = true) (hd : dirOfAction a = some d) :
    (step e a).1.agent_dir = d := by
  simp [step, can_move_step_count, hm, hd, moveResolve_agent_dir]

/-- C3 witness: in the default environment the agent can move, and the south
action (implied direction 1) sets the facing to 1. -/
theorem facing_updated_iff_can_move_witness :
    (step env10 3).1.agent_dir = 1 :=
  facing_updated_iff_can_move env10 3 1 (by decide) (by decide)

/-! ## Further structural lemmas: done flag, movement, draw counts -/

theorem rewardDone_done_iff (spec : RewardSpec) (r0 : ℚ) (cell : Option Obj) :
    (rewardDone spec r0 cell).2 = true ↔
      (cell = some Obj.goal ∨ cell = some Obj.lava)
        ∧ spec.absorbing_states = false := by
  simp only [rewardDone]
  split_ifs <;> simp_all

theorem step_env_eq_moveResolve (e : Env) (a d : ℕ)
    (hm : can_move e = true) (hd : dirOfAction a = some d) :
    (step e a).1 =
      moveResolve { e with step_count := e.step_count + 1, agent_dir := d } := by
  simp [step, can_move_step_count, hm, hd]

theorem step_done_iff (e : Env) (a : ℕ) (o : StepOut)
    (h : (step e a).2 = Except.ok o) :
    o.done = true ↔
      e.max_steps ≤ e.step_count + 1
        ∨ ((o.info.current_cell_type = some Obj.goal
              ∨ o.info.current_cell_type = some Obj.lava)
            ∧ e.reward_spec.absorbing_states = false) := by
  simp only [step] at h
  split at h
  case isFalse hcm => simp at h
  case isTrue hcm =>
    split at h
    case h_1 => simp at h
    case h_2 d hd =>
      rw [Except.ok.injEq] at h
      subst h
      simp only [moveResolve_max_steps, moveResolve_step_count,
        moveResolve_reward_spec]
      by_cases hcut : e.max_steps ≤ e.step_count + 1 <;>
        simp [hcut, rewardDone_done_iff]

theorem slipDraw_rng_idx (p : ℚ) (r : Rng) :
    (slipDraw p r).2.idx = r.idx + (if 0 < p then 1 else 0) := by
  simp only [slipDraw, Rng.random]
  split <;> simp

theorem moveResolve_rng_idx (e : Env) :
    (moveResolve e).rng.idx =
      e.rng.idx + (if 0 < e.slip_proba then 1 else 0)
        + (if (cellFree e.grid (front_pos e)
                  && !(slipDraw e.slip_proba e.rng).1) = false
              ∧ (e.wall_rebound || (slipDraw e.slip_proba e.rng).1) = true
              ∧ rebound_slip_options e.grid e.agent_pos (DIR_TO_VEC e.agent_dir)
                  (front_pos e) ≠ []
            then 1 else 0) := by
  simp only [moveResolve]
  split
  case isTrue hfwd =>
    simp [hfwd, slipDraw_rng_idx]
  case isFalse hfwd =>
    split
    case isTrue hreb =>
      split
      case isTrue hlen =>
        have hne : rebound_slip_options e.grid e.agent_pos
            (DIR_TO_VEC e.agent_dir) (front_pos e) ≠ [] :=
          List.ne_nil_of_length_pos hlen
        simp [hfwd, hreb, hne, Rng.choice, slipDraw_rng_idx]
      case isFalse hlen =>
        have hnil : rebound_slip_options e.grid e.agent_pos
            (DIR_TO_VEC e.agent_dir) (front_pos e) = [] := by
          have h0 : (rebound_slip_options e.grid e.agent_pos
              (DIR_TO_VEC e.agent_dir) (front_pos e)).length = 0 := by omega
          exact List.length_eq_zero.mp h0
        simp [hnil, slipDraw_rng_idx]
    case isFalse hreb =>
      simp [hfwd, hreb, slipDraw_rng_idx]

theorem moveResolve_deterministic (e : Env)
    (hp : e.slip_proba = 0) (hw : e.wall_rebound = false) :
    (cellFree e.grid (front_pos e) = true →
        moveResolve e = { e with agent_pos := front_pos e })
      ∧ (cellFree e.grid (front_pos e) = false → moveResolve e = e) := by
  cases e with
  | mk g asp sp rs gp lp sa spos wr ms ap ad sc rng =>
    simp only [] at hp hw
    subst hp
    subst hw
    constructor <;> intro hf <;>
      simp_all [moveResolve, slipDraw]


/-! ## C6, C7, C4 -/

/-- C6: the step counter is incremented first and counts the step just taken;
`done` is forced to true whenever the incremented counter reaches max-steps,
overriding the reward/termination evaluation; `done` can otherwise only come
from a non-absorbing goal/lava cell; the counter starts at 0 after
construction/reset and equals `N` after `N` non-raising steps. -/
theorem step_counter_cutoff :
    (∀ (e : Env) (a : ℕ), (step e a).1.step_count = e.step_count + 1)
      ∧ (∀ (e : Env) (a : ℕ) (o : StepOut), (step e a).2 = Except.ok o →
          e.max_steps ≤ e.step_count + 1 → o.done = true)
      ∧ (∀ (e : Env) (a : ℕ) (o : StepOut), (step e a).2 = Except.ok o →
          o.done = true →
          e.max_steps ≤ e.step_count + 1
            ∨ ((o.info.current_cell_type = some Obj.goal
                  ∨ o.info.current_cell_type = some Obj.lava)
                ∧ e.reward_spec.absorbing_states = false))
      ∧ (∀ (c : Config) (r : Rng), (mkEnv c r).step_count = 0)
      ∧ (∀ (acts : List ℕ) (e e2 : Env), stepIterOk e acts = some e2 →
          e2.step_count = e.step_count + acts.length) := by
  refine ⟨step_step_count, ?_, ?_, fun _ _ => rfl, ?_⟩
  · intro e a o h hcut
    exact (step_done_iff e a o h).mpr (Or.inl hcut)
  · intro e a o h hdone
    exact (step_done_iff e a o h).mp hdone
  · intro acts
    induction acts with
    | nil => intro e e2 h; simp [stepIterOk] at h; simp [← h]
    | cons a rest ih =>
      intro e e2 h
      simp only [stepIterOk] at h
      split at h
      case h_1 e1 o heq =>
        have h1 := ih _ _ h
        have h2 : e1.step_count = e.step_count + 1 := by
          have := step_step_count e a
          rw [congrArg Prod.fst heq] at this
          exact this
        simp [h1, h2, List.length_cons]
        omega
      case h_2 => exact absurd h (by simp)

/-- C6 witness: the fifth part on the default environment (counter 2 after the
two-step action list), and the cutoff on a max-steps-1 environment. -/
theorem step_counter_cutoff_witness :
    (step { env10 with max_steps := 1 } 1).2 =
        Except.ok
          { reward := 0
            done := true
            info :=
              { agent_pos := (2, 8)
                previous_pos := (2, 9)
                actual_movement_vec := (0, -1)
                intended_movement_vec := (0, -1)
                slipped := false
                current_cell_type := none } }
      ∧ ({ reward := 0
           done := true
           info :=
             { agent_pos := (2, 8)
               previous_pos := (2, 9)
               actual_movement_vec := (0, -1)
               intended_movement_vec := (0, -1)
               slipped := false
               current_cell_type := none } } : StepOut).done = true :=
  ⟨rfl, step_counter_cutoff.2.1 { env10 with max_steps := 1 } 1 _ rfl (by decide)⟩

/-- C7: with slip probability 0 and wall rebound disabled, a step from a
movable position moves the agent exactly one cell in the action's direction
when the forward cell is free, leaves the position unchanged when it is not,
and consumes no random draws in either case. -/
theorem no_slip_no_rebound_step (e : Env) (a d : ℕ)
    (hp : e.slip_proba = 0) (hw : e.wall_rebound = false)
    (hm : can_move e = true) (hd : dirOfAction a = some d) :
    (cellFree e.grid (e.agent_pos + DIR_TO_VEC d) = true →
        (step e a).1.agent_pos = e.agent_pos + DIR_TO_VEC d)
      ∧ (cellFree e.grid (e.agent_pos + DIR_TO_VEC d) = false →
        (step e a).1.agent_pos = e.agent_pos)
      ∧ (step e a).1.rng.idx = e.rng.idx := by
  have he := step_env_eq_moveResolve e a d hm hd
  have hdm := moveResolve_deterministic
    { e with step_count := e.step_count + 1, agent_dir := d }
    (by simpa using hp) (by simpa using hw)
  have hfr : front_pos { e with step_count := e.step_count + 1, agent_dir := d }
      = e.agent_pos + DIR_TO_VEC d := rfl
  refine ⟨?_, ?_, ?_⟩
  · intro hf
    rw [he, hdm.1 (by simpa [hfr] using hf)]
    rfl
  · intro hf
    rw [he, hdm.2 (by simpa [hfr] using hf)]
  · rw [he, moveResolve_rng_idx]
    simp [hp, hw, slipDraw, hfr]

/-- C7 witness: in the default environment (slip 0, no rebound) the north
action from `(2, 9)` moves the agent to the free cell `(2, 8)` and consumes
no draws. -/
theorem no_slip_no_rebound_step_witness :
    (step env10 1).1.agent_pos = (2, 8) ∧ (step env10 1).1.rng.idx = 0 := by
  have h := no_slip_no_rebound_step env10 1 3 (by decide) (by decide)
    (by decide) (by decide)
  refine ⟨?_, h.2.2⟩
  rw [h.1 (by decide)]
  decide

/-- C4 counterexample: in the default environment the slip probability is 0,
so a step that attempts (and performs) a movement consumes no random draw at
all — the claim's "exactly one random draw is consumed for the slip test"
fails. -/
theorem slip_draw_count_counterexample :
    can_move env10 = true
      ∧ env10.slip_proba = 0
      ∧ (step env10 1).1.agent_pos = (2, 8)
      ∧ (step env10 1).1.rng.idx = env10.rng.idx := by
  refine ⟨by decide, by decide, by decide, by decide⟩

/-- C4 amended: on a movement-attempting step, one draw is consumed for the
slip test exactly when the slip probability is positive (none when it is 0),
and one further draw is consumed for the rebound/slip destination exactly
when the forward move is not taken, the rebound-or-slip condition holds and
the filtered candidate set is non-empty — even when that set has exactly one
member; no other draws are consumed. -/
theorem rng_draw_count (e : Env) (a d : ℕ)
    (hm : can_move e = true) (hd : dirOfAction a = some d) :
    (step e a).1.rng.idx =
      e.rng.idx + (if 0 < e.slip_proba then 1 else 0)
        + (if (cellFree e.grid (e.agent_pos + DIR_TO_VEC d)
                  && !(slipDraw e.slip_proba e.rng).1) = false
              ∧ (e.wall_rebound || (slipDraw e.slip_proba e.rng).1) = true
              ∧ rebound_slip_options e.grid e.agent_pos (DIR_TO_VEC d)
                  (e.agent_pos + DIR_TO_VEC d) ≠ []
            then 1 else 0) := by
  rw [step_env_eq_moveResolve e a d hm hd, moveResolve_rng_idx]
  rfl

/-- A rebound environment for the draw-count witness: slip probability 1/2,
wall rebound enabled, agent at `(2, 1)` facing the top wall. -/
def envReb : Env :=
  { env10 with agent_pos := (2, 1), wall_rebound := true,
               slip_proba := mkRat 1 2 }

/-- C4 witness: in `envReb` the north action walks into the wall; one draw is
consumed for the slip test and one for choosing among the free candidates. -/
theorem rng_draw_count_witness : (step envReb 1).1.rng.idx = 2 := by
  rw [rng_draw_count envReb 1 3 (by decide) (by decide)]
  decide

/-! ## C9: construction-time validation -/

/-- A configuration whose start position is strictly interior (`x = 1` is
inside the 11×11 grid's open interior) and collides with no goal or lava
tile, yet is rejected by the constructor's checks. -/
def cfg9 : Config := { agent_start_pos := (1, 1), lava_positions := some [] }

/-- C9 counterexample: the start `(1, 1)` of `cfg9` is strictly interior and
on neither a goal nor a lava position, yet the construction-time checks
reject it (the source demands `start_x > 1` and `start_y > 1`, not `> 0`). -/
theorem interior_start_rejected :
    (0 : ℤ) < cfg9.agent_start_pos.1
      ∧ cfg9.agent_start_pos.1 < (cfg9.width : ℤ) - 1
      ∧ (0 : ℤ) < cfg9.agent_start_pos.2
      ∧ cfg9.agent_start_pos.2 < (cfg9.height : ℤ) - 1
      ∧ cfg9.agent_start_pos ∉ cfg9.goal_positions
      ∧ cfg9.agent_start_pos ∉ resolvedLava cfg9
      ∧ initChecks cfg9 = false := by
  decide

/-- C9 amended: construction validates eagerly and succeeds exactly when the
dimensions are at least 6, the slip probability lies in `[0, 1)`, both start
coordinates are strictly greater than 1 and strictly less than the far wall
(so interior positions on the `x = 1` or `y = 1` lines are rejected), the
start collides with no goal and no (resolved) lava position, and the
risky-tile reward is zero unless risky tiles are enabled. -/
theorem initChecks_iff (c : Config) :
    initChecks c = true ↔
      6 ≤ c.width ∧ 6 ≤ c.height
        ∧ 0 ≤ c.slip_proba ∧ c.slip_proba < 1
        ∧ 1 < c.agent_start_pos.1 ∧ c.agent_start_pos.1 < (c.width : ℤ) - 1
        ∧ 1 < c.agent_start_pos.2 ∧ c.agent_start_pos.2 < (c.height : ℤ) - 1
        ∧ c.agent_start_pos ∉ c.goal_positions
        ∧ c.agent_start_pos ∉ resolvedLava c
        ∧ (c.reward_spec.risky_tile_reward = 0 ∨ c.spiky_active = true) := by
  simp [initChecks, List.contains, List.elem_iff, and_assoc]

/-- C9 witness: the default configuration passes the checks. -/
theorem initChecks_iff_witness : initChecks {} = true :=
  (initChecks_iff {}).mpr (by decide)

/-! ## C8: tensor observation -/

/-- The grid's walls are exactly its outer ring (true of every grid built by
`_gen_grid` from interior hazard/goal positions: there are no interior
walls). -/
def wallsExactRing (g : Grid) : Prop :=
  ∀ x < g.width, ∀ y < g.height,
    (g.get ((x : ℤ), (y : ℤ)) = some Obj.wall ↔ onRing g.width g.height ((x : ℤ), (y : ℤ)))

instance (g : Grid) : Decidable (wallsExactRing g) := by
  unfold wallsExactRing; infer_instance

/-- C8: the tensor observation has channel count 4 without spiky tiles and 5
with them; every entry is 0 or 1; the agent channel sums to exactly 1 over
the grid; and (absent interior walls) the wall channel is 1 exactly on the
outer ring. -/
theorem tensor_obs_props (e : Env)
    (ha : 0 ≤ e.agent_pos.1 ∧ e.agent_pos.1 < (e.grid.width : ℤ)
        ∧ 0 ≤ e.agent_pos.2 ∧ e.agent_pos.2 < (e.grid.height : ℤ)) :
    (e.spiky_active = false → tensorShape e = (e.grid.width, e.grid.height, 4))
      ∧ (e.spiky_active = true → tensorShape e = (e.grid.width, e.grid.height, 5))
      ∧ (∀ x y c : ℕ, tensorObs e x y c = 0 ∨ tensorObs e x y c = 1)
      ∧ (∑ x in Finset.range e.grid.width, ∑ y in Finset.range e.grid.height,
          tensorObs e x y 0) = 1
      ∧ (wallsExactRing e.grid → ∀ x < e.grid.width, ∀ y < e.grid.height,
          (tensorObs e x y 1 = 1 ↔ onRing e.grid.width e.grid.height ((x : ℤ), (y : ℤ)))) := by
  obtain ⟨hx0, hxw, hy0, hyh⟩ := ha
  refine ⟨fun h => by simp [tensorShape, h], fun h => by simp [tensorShape, h],
    ?_, ?_, ?_⟩
  · intro x y c
    by_cases hc : c = 0
    · simp only [tensorObs, hc, if_pos]
      split <;> simp
    · simp only [tensorObs, hc, if_neg, ite_false]
      cases hget : e.grid.get ((x : ℤ), (y : ℤ)) with
      | none => simp
      | some o => cases o <;> split_ifs <;> simp
  · have hax : e.agent_pos.1.toNat ∈ Finset.range e.grid.width := by
      rw [Finset.mem_range]; omega
    have hay : e.agent_pos.2.toNat ∈ Finset.range e.grid.height := by
      rw [Finset.mem_range]; omega
    calc (∑ x in Finset.range e.grid.width, ∑ y in Finset.range e.grid.height,
            tensorObs e x y 0)
        = ∑ x in Finset.range e.grid.width, ∑ y in Finset.range e.grid.height,
            (if x = e.agent_pos.1.toNat then
              (if y = e.agent_pos.2.toNat then 1 else 0) else 0) := by
          refine Finset.sum_congr rfl fun x _ => Finset.sum_congr rfl fun y _ => ?_
          have hcond : (((x : ℤ), (y : ℤ)) = e.agent_pos) ↔
              (x = e.agent_pos.1.toNat ∧ y = e.agent_pos.2.toNat) := by
            rw [Prod.ext_iff]
            constructor
            · rintro ⟨h1, h2⟩
              constructor <;> omega
            · rintro ⟨h1, h2⟩
              constructor <;> omega
          simp [tensorObs, hcond, ite_and]
      _ = ∑ x in Finset.range e.grid.width,
            (if x = e.agent_pos.1.toNat then 1 else 0) := by
          refine Finset.sum_congr rfl fun x _ => ?_
          by_cases hxa : x = e.agent_pos.1.toNat
          · simp [hxa, Finset.sum_ite_eq', hay]
          · simp [hxa]
      _ = 1 := by
          rw [Finset.sum_ite_eq' (Finset.range e.grid.width)
            e.agent_pos.1.toNat (fun _ => 1)]
          simp [hax]
  · intro hwr x hx y hy
    have hiff := hwr x hx y hy
    cases hget : e.grid.get ((x : ℤ), (y : ℤ)) with
    | none => simp_all [tensorObs, hget]
    | some o => cases o <;> simp_all [tensorObs, hget]

/-- C8 witness: in the default environment the tensor has 4 channels, the
agent channel sums to 1, and the wall channel is 1 at the ring cell (0,0). -/
theorem tensor_obs_props_witness :
    tensorShape env10 = (11, 11, 4)
      ∧ (∑ x in Finset.range env10.grid.width,
          ∑ y in Finset.range env10.grid.height, tensorObs env10 x y 0) = 1
      ∧ (tensorObs env10 0 0 1 = 1
          ↔ onRing env10.grid.width env10.grid.height (0, 0)) := by
  have h := tensor_obs_props env10 (by decide)
  exact ⟨h.1 rfl, h.2.2.2.1, h.2.2.2.2 (by decide) 0 (by decide) 0 (by decide)⟩

/-! ## C5: the agent never leaves the interior, never stands in a wall -/

/-- Strict interiority: the position is inside the open interior of a
`w × h` grid (not on or beyond the outer wall ring). -/
def interior (w h : ℕ) (p : ℤ × ℤ) : Prop :=
  0 < p.1 ∧ p.1 < (w : ℤ) - 1 ∧ 0 < p.2 ∧ p.2 < (h : ℤ) - 1

instance (w h : ℕ) (p : ℤ × ℤ) : Decidable (interior w h p) := by
  unfold interior; infer_instance

/-- The outer ring of the grid consists of walls (as `_gen_grid` builds it). -/
def ringWalled (g : Grid) : Prop :=
  ∀ x < g.width, ∀ y < g.height,
    onRing g.width g.height ((x : ℤ), (y : ℤ)) →
      g.get ((x : ℤ), (y : ℤ)) = some Obj.wall

instance (g : Grid) : Decidable (ringWalled g) := by
  unfold ringWalled; infer_instance

theorem dir_vec_abs (d : ℕ) :
    (DIR_TO_VEC d).1.natAbs ≤ 1 ∧ (DIR_TO_VEC d).2.natAbs ≤ 1 := by
  rcases d with _ | _ | _ | d <;> simp [DIR_TO_VEC]

/-- A cell adjacent (in the 8-neighbourhood sense of one-step coordinate
changes) to an interior position that passes the overlap filter is itself
interior and not a wall. -/
theorem cellFree_neighbor (g : Grid) (p t : ℤ × ℤ) (hr : ringWalled g)
    (hi : interior g.width g.height p)
    (hax : (t.1 - p.1).natAbs ≤ 1) (hay : (t.2 - p.2).natAbs ≤ 1)
    (hf : cellFree g t = true) :
    interior g.width g.height t ∧ g.get t ≠ some Obj.wall := by
  obtain ⟨h1, h2, h3, h4⟩ := hi
  have hb1 : 0 ≤ t.1 := by omega
  have hb2 : t.1 < (g.width : ℤ) := by omega
  have hb3 : 0 ≤ t.2 := by omega
  have hb4 : t.2 < (g.height : ℤ) := by omega
  have hnw : g.get t ≠ some Obj.wall := by
    intro hcontra
    simp [cellFree, hcontra, canOverlap] at hf
  have hnr : ¬ onRing g.width g.height t := by
    intro hring
    have hcast : ((t.1.toNat : ℤ), (t.2.toNat : ℤ)) = t := by
      rw [Int.toNat_of_nonneg hb1, Int.toNat_of_nonneg hb3]
    have hget := hr t.1.toNat (by omega) t.2.toNat (by omega)
      (by rw [hcast]; exact hring)
    rw [hcast] at hget
    exact hnw hget
  refine ⟨?_, hnw⟩
  simp only [onRing, not_or] at hnr
  exact ⟨by omega, by omega, by omega, by omega⟩

theorem choice_fst_lt (r : Rng) (n : ℕ) (hn : 0 < n) : (r.choice n).1 < n :=
  Nat.mod_lt _ hn

/-- Membership in the rebound/slip candidate list means the cell passes the
overlap filter and differs from the agent position by at most one in each
coordinate. -/
theorem rebound_slip_options_safe (g : Grid) (p : ℤ × ℤ) (d : ℕ) (t : ℤ × ℤ)
    (ht : t ∈ rebound_slip_options g p (DIR_TO_VEC d) (p + DIR_TO_VEC d)) :
    cellFree g t = true
      ∧ (t.1 - p.1).natAbs ≤ 1 ∧ (t.2 - p.2).natAbs ≤ 1 := by
  have hv := dir_vec_abs d
  rw [rebound_slip_options, List.mem_filter] at ht
  obtain ⟨hmem, hfree⟩ := ht
  refine ⟨hfree, ?_, ?_⟩ <;>
    · simp only [List.mem_cons, List.not_mem_nil, or_false] at hmem
      rcases hmem with h | h | h | h <;> subst h <;>
        simp only [Prod.fst_sub, Prod.snd_sub, Prod.fst_add, Prod.snd_add] <;>
        omega

/-- `moveResolve` never moves the agent onto a wall or out of the interior. -/
theorem moveResolve_safe (e : Env) (hr : ringWalled e.grid)
    (hi : interior e.grid.width e.grid.height e.agent_pos)
    (hw : e.grid.get e.agent_pos ≠ some Obj.wall) :
    interior e.grid.width e.grid.height (moveResolve e).agent_pos
      ∧ e.grid.get (moveResolve e).agent_pos ≠ some Obj.wall := by
  have hv := dir_vec_abs e.agent_dir
  simp only [moveResolve]
  split
  case isTrue hfwd =>
    rw [Bool.and_eq_true] at hfwd
    refine cellFree_neighbor e.grid e.agent_pos _ hr hi ?_ ?_ hfwd.1 <;>
      simp only [front_pos, Prod.fst_add, Prod.snd_add] <;> omega
  case isFalse hfwd =>
    split
    case isTrue hreb =>
      split
      case isTrue hlen =>
        have hmem : (rebound_slip_options e.grid e.agent_pos
              (DIR_TO_VEC e.agent_dir) (front_pos e)).getD
              (((slipDraw e.slip_proba e.rng).2.choice
                (rebound_slip_options e.grid e.agent_pos
                  (DIR_TO_VEC e.agent_dir) (front_pos e)).length).1) e.agent_pos
            ∈ rebound_slip_options e.grid e.agent_pos
              (DIR_TO_VEC e.agent_dir) (front_pos e) := by
          rw [List.getD_eq_getElem?_getD, List.getElem?_eq_getElem
            (choice_fst_lt _ _ hlen)]
          exact List.getElem_mem _
        have hsafe := rebound_slip_options_safe e.grid e.agent_pos e.agent_dir _
          (by rw [show e.agent_pos + DIR_TO_VEC e.agent_dir = front_pos e from rfl]
              exact hmem)
        exact cellFree_neighbor e.grid e.agent_pos _ hr hi hsafe.2.1 hsafe.2.2
          hsafe.1
      case isFalse hlen => exact ⟨hi, hw⟩
    case isFalse hreb => exact ⟨hi, hw⟩

theorem step_frozen_env (e : Env) (a : ℕ) (h : can_move e = false) :
    (step e a).1 = { e with step_count := e.step_count + 1 } := by
  simp [step, can_move_step_count, h]

theorem step_bad_action_env (e : Env) (a : ℕ) (h : dirOfAction a = none) :
    (step e a).1 = { e with step_count := e.step_count + 1 } := by
  by_cases hm : can_move e <;> simp [step, can_move_step_count, hm, h]

/-- A single `step` keeps the agent strictly interior and off walls. -/
theorem step_preserves_safe (e : Env) (a : ℕ) (hr : ringWalled e.grid)
    (hi : interior e.grid.width e.grid.height e.agent_pos)
    (hw : e.grid.get e.agent_pos ≠ some Obj.wall) :
    interior e.grid.width e.grid.height (step e a).1.agent_pos
      ∧ e.grid.get (step e a).1.agent_pos ≠ some Obj.wall := by
  by_cases hm : can_move e
  · cases hd : dirOfAction a with
    | none => rw [step_bad_action_env e a hd]; exact ⟨hi, hw⟩
    | some d =>
      rw [step_env_eq_moveResolve e a d hm hd]
      exact moveResolve_safe
        { e with step_count := e.step_count + 1, agent_dir := d } hr hi hw
  · rw [step_frozen_env e a (by simpa using hm)]
    exact ⟨hi, hw⟩

/-- C5: starting from a grid whose outer ring is wall and an interior,
non-wall agent position, any sequence of steps leaves the agent strictly
interior (`0 < x < width−1`, `0 < y < height−1`) and never inside a wall
cell. -/
theorem agent_never_in_wall (e : Env) (acts : List ℕ) (hr : ringWalled e.grid)
    (hi : interior e.grid.width e.grid.height e.agent_pos)
    (hw : e.grid.get e.agent_pos ≠ some Obj.wall) :
    interior (stepIter e acts).grid.width (stepIter e acts).grid.height
        (stepIter e acts).agent_pos
      ∧ (stepIter e acts).grid.get (stepIter e acts).agent_pos
          ≠ some Obj.wall := by
  induction acts generalizing e with
  | nil => exact ⟨hi, hw⟩
  | cons a rest ih =>
    simp only [stepIter]
    have hstep := step_preserves_safe e a hr hi hw
    have hg := step_grid e a
    exact ih (step e a).1 (by rw [hg]; exact hr) (by rw [hg]; exact hstep.1)
      (by rw [hg]; exact hstep.2)

/-- C5 witness: three steps (north, north, west) in the default environment
end at an interior, non-wall position. -/
theorem agent_never_in_wall_witness :
    interior (stepIter env10 [1, 1, 0]).grid.width
        (stepIter env10 [1, 1, 0]).grid.height
        (stepIter env10 [1, 1, 0]).agent_pos
      ∧ (stepIter env10 [1, 1, 0]).grid.get (stepIter env10 [1, 1, 0]).agent_pos
          ≠ some Obj.wall :=
  agent_never_in_wall env10 [1, 1, 0] (by decide) (by decide) (by decide)

/-! ## C10: the concrete "repeat north" scenario -/

/-- Column `x = 2` of the default grid is empty at every interior height. -/
theorem col2_empty (y : ℤ) (h1 : 1 ≤ y) (h9 : y ≤ 9) :
    env10.grid.get (2, y) = none := by
  interval_cases y <;> decide

theorem stepIter_append (e : Env) (l1 l2 : List ℕ) :
    stepIter e (l1 ++ l2) = stepIter (stepIter e l1) l2 := by
  induction l1 generalizing e with
  | nil => rfl
  | cons a rest ih => simp [stepIter, ih]

/-- One north step anywhere in the empty column `x = 2` of the default grid:
the agent faces north and moves up one cell, stopping against the top wall. -/
theorem step_north_col2 (e : Env) (y : ℤ) (hg : e.grid = env10.grid)
    (hp : e.slip_proba = 0) (hw : e.wall_rebound = false)
    (hpos : e.agent_pos = (2, y)) (h1 : 1 ≤ y) (h9 : y ≤ 9) :
    (step e 1).1 =
      { e with step_count := e.step_count + 1, agent_dir := 3,
               agent_pos := (2, max 1 (y - 1)) } := by
  have hm : can_move e = true := by
    simp [can_move, hg, hpos, col2_empty y h1 h9]
  have he := step_env_eq_moveResolve e 1 3 hm rfl
  have hdm := moveResolve_deterministic
    { e with step_count := e.step_count + 1, agent_dir := 3 }
    (by simpa using hp) (by simpa using hw)
  have hfp : front_pos { e with step_count := e.step_count + 1, agent_dir := 3 }
      = (2, y - 1) := by
    simp [front_pos, hpos, DIR_TO_VEC, Prod.ext_iff]
    omega
  by_cases hy2 : 2 ≤ y
  · have hfree : cellFree e.grid ((2 : ℤ), y - 1) = true := by
      simp [cellFree, hg, col2_empty (y - 1) (by omega) (by omega)]
    rw [he, hdm.1 (by rw [hfp]; exact hfree), hfp,
      show (max 1 (y - 1) : ℤ) = y - 1 from by omega]
  · have hy1 : y = 1 := by omega
    subst hy1
    have hwget : env10.grid.get (2, 0) = some Obj.wall := by decide
    have hfree : cellFree e.grid ((2 : ℤ), (0 : ℤ)) = false := by
      simp [cellFree, hg, hwget, canOverlap]
    rw [he, hdm.2 (by rw [hfp]; exact hfree),
      show (max 1 ((1 : ℤ) - 1)) = 1 from by omega,
      show ((2 : ℤ), (1 : ℤ)) = e.agent_pos from hpos.symm]

/-- The full "repeat north" trajectory from the default start `(2, 9)`: after
`n` steps the agent is at `(2, 9 - min n 8)`, facing north, with step counter
`n` (it climbs the empty column `x = 2` and parks below the top wall). -/
theorem north_traj (n : ℕ) :
    stepIter env10 (List.replicate n 1) =
      { env10 with step_count := n, agent_dir := 3,
                   agent_pos := (2, 9 - (min n 8 : ℕ)) } := by
  induction n with
  | zero => rfl
  | succ n ih =>
    rw [List.replicate_succ', stepIter_append, ih]
    simp only [stepIter]
    rw [step_north_col2
      { env10 with step_count := n, agent_dir := 3,
                   agent_pos := (2, 9 - ((min n 8 : ℕ) : ℤ)) }
      (9 - ((min n 8 : ℕ) : ℤ)) rfl rfl rfl rfl (by omega) (by omega)]
    have hmax : (max 1 ((9 - ((min n 8 : ℕ) : ℤ)) - 1)) =
        9 - ((min (n + 1) 8 : ℕ) : ℤ) := by
      push_cast
      omega
    rw [hmax]

/-- C10 counterexample: repeatedly applying "north" from the default start
never reaches a lava cell at all (column `x = 2` holds no lava; the default
layout's lava sits at `x ∈ {1, 3, 6}`), refuting the claimed scenario. -/
theorem north_reaches_lava_counterexample :
    ¬ ∃ n : ℕ, (stepIter env10 (List.replicate n 1)).grid.get
        (stepIter env10 (List.replicate n 1)).agent_pos = some Obj.lava := by
  rintro ⟨n, h⟩
  rw [north_traj n] at h
  simp only [] at h
  rw [col2_empty (9 - ((min n 8 : ℕ) : ℤ)) (by omega) (by omega)] at h
  exact Option.noConfusion h

/-- C10 amended: in the claimed 11×11 scenario the repeated "north" action
never reaches lava: the agent climbs the empty column `x = 2`, reaches
`(2, 1)` after 8 steps and stays there; the episode first ends at step 150 by
the max-steps cutoff, with reward equal to the step penalty (0) and a `none`
current-cell type in the diagnostics. -/
theorem north_walk_never_lava :
    (∀ n : ℕ, (stepIter env10 (List.replicate n 1)).grid.get
        (stepIter env10 (List.replicate n 1)).agent_pos ≠ some Obj.lava)
      ∧ (stepIter env10 (List.replicate 8 1)).agent_pos = (2, 1)
      ∧ (step (stepIter env10 (List.replicate 149 1)) 1).2 =
          Except.ok
            { reward := 0
              done := true
              info :=
                { agent_pos := (2, 1)
                  previous_pos := (2, 1)
                  actual_movement_vec := (0, 0)
                  intended_movement_vec := (0, -1)
                  slipped := false
                  current_cell_type := none } } := by
  refine ⟨?_, ?_, ?_⟩
  · intro n h
    rw [north_traj n] at h
    simp only [] at h
    rw [col2_empty (9 - ((min n 8 : ℕ) : ℤ)) (by omega) (by omega)] at h
    exact Option.noConfusion h
  · rw [north_traj 8]
    decide
  · rw [north_traj 149]
    rfl

/-- C10 amended witness: the no-lava fact applied after 9 north steps. -/
theorem north_walk_never_lava_witness :
    (stepIter env10 (List.replicate 9 1)).grid.get
        (stepIter env10 (List.replicate 9 1)).agent_pos ≠ some Obj.lava :=
  north_walk_never_lava.1 9

end RiskyPath
